import Mathlib

/-!
Shallow embedding of the Cyberdeck-Code repository
(CHARL3X/Cyberdeck-Code) in Lean 4, for checking its natural-language
specification against the code.

The embedded functions are translated from:
  * `unified_cyberdeck_controller.py` — `UnifiedCyberdeckController`
    (`switch_mux_channel`, `update_servo_angle`,
    `process_encoder_events`, `encoder_polling_thread`);
  * `servo_control/screen_tilt/screen_tilt_control.py` —
    `ScreenTiltController` (`update_servo`, `check_encoder`,
    `_button_released`, `_process_clicks`, `_handle_single_click`,
    `_handle_double_click`, state seeding in `__init__`);
  * `oled_display/mux_resilient_oled.py` — `ResilientMuxOLED._ensure_channel`
    (the 3-attempt retry loop).

Hardware I2C writes can raise exceptions in Python; here every
channel-select write attempt consumes one value of an explicit oracle
`Nat → Bool` indexed by the number of writes attempted so far (`true`
means the write succeeds, `false` means it raises and the exception is
caught exactly where the Python code catches it).  Angles and
sensitivities are Python floats holding small decimal values; they are
embedded as `Rat`.  The multiplexer is modelled as present
(`self.mux_bus` is not `None`); the no-multiplexer degraded mode is
outside every claim considered here, which all concern the
multiplexer's selected channel.
-/

/-- I2C channel constants from `unified_cyberdeck_controller.py`:
`OLED_CHANNEL = 0`. -/
def OLED_CHANNEL : Nat := 0

/-- `SERVO_CHANNEL = 1`. -/
def SERVO_CHANNEL : Nat := 1

/-- State of the multiplexer arbiter inside `UnifiedCyberdeckController`:
`self.current_mux_channel` (initially `None`) together with the log of
hardware channel-select writes attempted so far (each entry is the
channel argument of one `self.mux_bus.write_byte(MUX_ADDRESS, 1 << channel)`
call, successful or raising). -/
structure MuxState where
  currentChannel : Option Nat
  writes : List Nat
deriving Repr, DecidableEq

/-- The arbiter state at process start: `self.current_mux_channel = None`,
no writes attempted yet. -/
def initMux : MuxState := ⟨none, []⟩

/-- `UnifiedCyberdeckController.switch_mux_channel(channel)` with the
multiplexer present.  If the cached channel already equals `channel`,
returns `True` with no hardware write.  Otherwise it attempts exactly one
`write_byte`; on success it updates `current_mux_channel` and returns
`True`; on an exception it returns `False` leaving `current_mux_channel`
unchanged (the `except` clause only prints).  The oracle decides whether
the attempted write succeeds. -/
def switchMuxChannel (oracle : Nat → Bool) (s : MuxState) (channel : Nat) :
    Bool × MuxState :=
  if s.currentChannel = some channel then
    (true, s)
  else
    let ok := oracle s.writes.length
    let s' : MuxState := ⟨s.currentChannel, s.writes ++ [channel]⟩
    if ok then
      (true, ⟨some channel, s'.writes⟩)
    else
      (false, s')

/-- `ResilientMuxOLED._ensure_channel` retry loop
(`mux_resilient_oled.py`, lines 68–83), abstracted over the write
oracle: `fuel` is the number of attempts remaining (the code enters with
`retries = 3`), `start` the index of the next hardware write.  Returns
whether the loop succeeded together with the number of channel-select
writes it attempted. -/
def ensureChannelAttempts (oracle : Nat → Bool) (start : Nat) :
    Nat → Bool × Nat
  | 0 => (false, 0)
  | fuel + 1 =>
    if oracle start then (true, 1)
    else
      let r := ensureChannelAttempts oracle (start + 1) fuel
      (r.1, r.2 + 1)

/-- `ResilientMuxOLED._ensure_channel(force=True)` with the mux
available: runs the 3-attempt loop from write index `start`. -/
def ensureChannel (oracle : Nat → Bool) (start : Nat) : Bool × Nat :=
  ensureChannelAttempts oracle start 3

/-- Servo sensitivity mode: the `self.mode` string, one of
`'direct'`, `'fine'`, `'range'`. -/
inductive Mode where
  | direct
  | fine
  | range
deriving Repr, DecidableEq

/-- The servo configuration dictionary (`load_config`): per-mode
sensitivities, the Range mode's own `min_angle`/`max_angle`, and the
global `min_angle`/`max_angle`/`center_angle`. -/
structure ServoConfig where
  centerAngle : Rat
  minAngle : Rat
  maxAngle : Rat
  directSens : Rat
  fineSens : Rat
  rangeSens : Rat
  rangeMin : Rat
  rangeMax : Rat
deriving Repr, DecidableEq

/-- `self.config['modes'][mode]['sensitivity']`. -/
def ServoConfig.sensitivity (cfg : ServoConfig) : Mode → Rat
  | .direct => cfg.directSens
  | .fine => cfg.fineSens
  | .range => cfg.rangeSens

/-- Python `min(a, b)` on two numbers. -/
def pymin (a b : Rat) : Rat := if a ≤ b then a else b

/-- Python `max(a, b)` on two numbers. -/
def pymax (a b : Rat) : Rat := if b ≤ a then a else b

/-- The clamping applied in `update_servo_angle` / `update_servo`:
`max(range.min_angle, min(range.max_angle, x))` when the mode is
`'range'`, else `max(config.min_angle, min(config.max_angle, x))`. -/
def clampAngle (cfg : ServoConfig) (m : Mode) (x : Rat) : Rat :=
  match m with
  | .range => pymax cfg.rangeMin (pymin cfg.rangeMax x)
  | _ => pymax cfg.minAngle (pymin cfg.maxAngle x)

/-- The mode's effective lower clamp bound (`range.min_angle` in Range
mode, the global `min_angle` otherwise). -/
def effectiveMin (cfg : ServoConfig) : Mode → Rat
  | .range => cfg.rangeMin
  | _ => cfg.minAngle

/-- The mode's effective upper clamp bound. -/
def effectiveMax (cfg : ServoConfig) : Mode → Rat
  | .range => cfg.rangeMax
  | _ => cfg.maxAngle

/-- The default configuration built in
`UnifiedCyberdeckController.load_config`: `center_angle=145`,
`min_angle=0`, `max_angle=270`, sensitivities `direct=10.0`,
`fine=2.0`, `range=10.0` with range `[90, 180]`. -/
def unifiedDefaultConfig : ServoConfig :=
  { centerAngle := 145, minAngle := 0, maxAngle := 270,
    directSens := 10, fineSens := 2,
    rangeSens := 10, rangeMin := 90, rangeMax := 180 }

/-- The in-memory state of `UnifiedCyberdeckController` touched by the
event-processing path: the multiplexer arbiter state plus
`self.current_angle`, `self.encoder_pos`, `self.mode`. -/
structure CtrlState where
  mux : MuxState
  currentAngle : Rat
  encoderPos : Int
  mode : Mode
deriving Repr, DecidableEq

/-- `UnifiedCyberdeckController.update_servo_angle(delta)` with the
servo kit present (`self.servo_kit` is not `None`).
`self.encoder_pos += delta`; the new angle is
`center_angle + encoder_pos * sensitivity` clamped by the active mode's
limits.  Only when the clamped angle differs from `self.current_angle`
does it store the new angle, switch the mux to `SERVO_CHANNEL`, perform
the device angle write (`deviceOk` tells whether that write raises; the
exception is caught and only printed), and in the `finally` block switch
back to `OLED_CHANNEL` ignoring that call's result. -/
def updateServoAngle (cfg : ServoConfig) (busOracle : Nat → Bool)
    (deviceOk : Bool) (s : CtrlState) (delta : Int) : CtrlState :=
  let pos := s.encoderPos + delta
  let newAngle := clampAngle cfg s.mode
    (cfg.centerAngle + pos * cfg.sensitivity s.mode)
  if newAngle = s.currentAngle then
    { s with encoderPos := pos }
  else
    let r1 := switchMuxChannel busOracle s.mux SERVO_CHANNEL
    if r1.1 then
      -- device write happens here; succeed or raise, the `finally`
      -- always runs `switch_mux_channel(OLED_CHANNEL)`
      let r2 := switchMuxChannel busOracle r1.2 OLED_CHANNEL
      { mux := r2.2, currentAngle := newAngle, encoderPos := pos,
        mode := s.mode }
    else
      { mux := r1.2, currentAngle := newAngle, encoderPos := pos,
        mode := s.mode }

/-- An event placed on `self.encoder_queue` by the encoder thread
(dataclass `EncoderEvent` with `type` and `value`).  The unified
controller's poller only ever produces `rotation`, `click` and
`long_press`; `double_click` is included because
`process_encoder_events` must consume unknown types silently. -/
inductive UEvent where
  | rotation (delta : Int)
  | click
  | doubleClick
  | longPress
deriving Repr, DecidableEq

/-- One iteration of the drain loop in
`UnifiedCyberdeckController.process_encoder_events`:
`'rotation'` calls `update_servo_angle(value)`; `'click'` sets
`self.encoder_pos = 0` then calls `update_servo_angle(0)`;
`'long_press'` calls `save_state()` (file output only, no in-memory
field is mutated); any other type (such as `'double_click'`) matches no
branch and the event is dropped. -/
def processEvent (cfg : ServoConfig) (busOracle : Nat → Bool)
    (deviceOk : Bool) (s : CtrlState) : UEvent → CtrlState
  | .rotation d => updateServoAngle cfg busOracle deviceOk s d
  | .click =>
      updateServoAngle cfg busOracle deviceOk { s with encoderPos := 0 } 0
  | .doubleClick => s
  | .longPress => s

/-- Draining the queue: `process_encoder_events` pops and handles events
in arrival order until the queue is empty. -/
def processEvents (cfg : ServoConfig) (busOracle : Nat → Bool)
    (deviceOk : Bool) (s : CtrlState) (es : List UEvent) : CtrlState :=
  es.foldl (processEvent cfg busOracle deviceOk) s

/-- Folding a list of rotation events through `update_servo_angle`
(the claim C4 scenario: a sequence of rotate deltas under a fixed
mode). -/
def applyRotations (cfg : ServoConfig) (busOracle : Nat → Bool)
    (deviceOk : Bool) (s : CtrlState) (ds : List Int) : CtrlState :=
  ds.foldl (updateServoAngle cfg busOracle deviceOk) s

/-- The default configuration of
`ScreenTiltController.load_config`: `center_angle=250`, `min_angle=0`,
`max_angle=270`, sensitivities `direct=5.0`, `fine=1.0`, `range=5.0`
with range `[90, 180]`. -/
def tiltDefaultConfig : ServoConfig :=
  { centerAngle := 250, minAngle := 0, maxAngle := 270,
    directSens := 5, fineSens := 1,
    rangeSens := 5, rangeMin := 90, rangeMax := 180 }

/-- The servo-position state of `ScreenTiltController`:
`self.current_angle`, `self.encoder_pos`, `self.mode`. -/
structure TiltState where
  currentAngle : Rat
  encoderPos : Int
  mode : Mode
deriving Repr, DecidableEq

/-- Seeding in `ScreenTiltController.__init__` (lines 121–123):
`self.current_angle = self.state.get('last_position', config['center_angle'])`,
`self.encoder_pos = 0`,
`self.mode = self.state.get('mode', config['default_mode'])`.
`persisted` is the loaded `position_state.json` content (`none` when the
file is absent or lacks the keys); `defaultMode` is
`config['default_mode']`. -/
def seedState (cfg : ServoConfig) (defaultMode : Mode)
    (persisted : Option (Rat × Mode)) : TiltState :=
  match persisted with
  | none => { currentAngle := cfg.centerAngle, encoderPos := 0,
              mode := defaultMode }
  | some (pos, m) => { currentAngle := pos, encoderPos := 0, mode := m }

/-- `ScreenTiltController.update_servo`: recompute
`center_angle + encoder_pos * sensitivity(mode)`, clamp by the mode's
limits, and store it in `self.current_angle` (when it equals the old
angle the assignment is skipped, leaving the same value; the hardware
write is external and does not touch this state). -/
def updateServo (cfg : ServoConfig) (s : TiltState) : TiltState :=
  let a := clampAngle cfg s.mode
    (cfg.centerAngle + s.encoderPos * cfg.sensitivity s.mode)
  { s with currentAngle := a }

/-- The rotation branch of `ScreenTiltController.check_encoder`:
`self.encoder_pos ± 1` followed by `self.update_servo()`; `delta` is the
`+1`/`-1` chosen from the DT level. -/
def tiltApplyRotation (cfg : ServoConfig) (s : TiltState) (delta : Int) :
    TiltState :=
  updateServo cfg { s with encoderPos := s.encoderPos + delta }

/-- `ScreenTiltController._handle_single_click`: `self.encoder_pos = 0`
then `self.update_servo()`. -/
def goHome (cfg : ServoConfig) (s : TiltState) : TiltState :=
  updateServo cfg { s with encoderPos := 0 }

/-- Python `int(q)` on a float: truncation toward zero. -/
def pytrunc (q : Rat) : Int :=
  if q < 0 then -(⌊-q⌋) else ⌊q⌋

/-- The cyclic successor used by `_handle_double_click`
(`modes = ['direct','fine','range']`, index `+1 mod 3`). -/
def nextMode : Mode → Mode
  | .direct => .fine
  | .fine => .range
  | .range => .direct

/-- `ScreenTiltController._handle_double_click`: advance the mode
cyclically, then
`self.encoder_pos = int((self.current_angle - center_angle) / modes[new_mode]['sensitivity'])`.
`self.current_angle` is not recomputed (no `update_servo()` call). -/
def cycleMode (cfg : ServoConfig) (s : TiltState) : TiltState :=
  let m := nextMode s.mode
  { currentAngle := s.currentAngle,
    encoderPos := pytrunc ((s.currentAngle - cfg.centerAngle) /
      cfg.sensitivity m),
    mode := m }

/-- Events emitted by the screen-tilt button classifier. -/
inductive BtnEvent where
  | click
  | doubleClick
  | longPress
deriving Repr, DecidableEq

/-- The click-accumulation state of `ScreenTiltController`:
`self.click_count` together with whether `self.click_timer` is armed. -/
structure ClassifierState where
  clickCount : Nat
  timerArmed : Bool
deriving Repr, DecidableEq

/-- The clean classifier state (`click_count = 0`, no pending timer). -/
def cleanClassifier : ClassifierState := ⟨0, false⟩

/-- Inputs to the button classifier: a debounce-confirmed release whose
measured press duration is `duration` seconds (the `_button_released`
handler after its 50 ms re-check), or the 0.3 s `threading.Timer`
deadline firing (`_process_clicks`).  The 300 ms window is encoded by
where `timeout` occurs in the input sequence: a release arriving before
the pending `timeout` cancels and re-arms the timer, exactly as
`self.click_timer.cancel()` followed by a fresh `threading.Timer(0.3, …)`
does. -/
inductive BtnIn where
  | release (duration : Rat)
  | timeout
deriving Repr, DecidableEq

/-- One classifier step.  `release d`: if `d > 1.0` the code calls
`_handle_long_press` at once (note: `click_count` and the timer are left
alone); otherwise `click_count += 1` and a fresh 0.3 s timer is armed.
`timeout` (`_process_clicks`): emits `Click` when `click_count == 1`,
`DoubleClick` when `click_count == 2`, nothing otherwise, then resets
`click_count = 0`. -/
def stepBtn (s : ClassifierState) : BtnIn → ClassifierState × Option BtnEvent
  | .release d =>
      if 1 < d then (s, some .longPress)
      else ({ clickCount := s.clickCount + 1, timerArmed := true }, none)
  | .timeout =>
      let ev : Option BtnEvent :=
        if s.clickCount = 1 then some .click
        else if s.clickCount = 2 then some .doubleClick
        else none
      (⟨0, false⟩, ev)

/-- Run the classifier over a sequence of inputs, collecting emitted
events in order. -/
def runBtn (s : ClassifierState) : List BtnIn → ClassifierState × List BtnEvent
  | [] => (s, [])
  | i :: is =>
      let r := stepBtn s i
      let rest := runBtn r.1 is
      (rest.1, (r.2.toList) ++ rest.2)

/-- The rotation decode shared by
`UnifiedCyberdeckController.encoder_polling_thread` (lines 222–231) and
`ScreenTiltController.check_encoder` (lines 244–251): given the previous
CLK sample, the new CLK sample and the current DT sample, emit a
rotation delta exactly when CLK changed and its new sample is low;
`+1` when DT differs from the new CLK sample, `-1` otherwise. -/
def decodeRotation (lastClk clk dt : Bool) : Option Int :=
  if clk ≠ lastClk ∧ clk = false then
    some (if dt ≠ clk then 1 else -1)
  else
    none

/-! ## Theorems -/

/-- Helper: a single `switch_mux_channel` call appends at most one entry
to the write log. -/
theorem switchMuxChannel_writes_le (o : Nat → Bool) (s : MuxState)
    (c : Nat) :
    (switchMuxChannel o s c).2.writes.length ≤ s.writes.length + 1 := by
  unfold switchMuxChannel
  by_cases h : s.currentChannel = some c
  · simp [h]
  · by_cases ho : o s.writes.length <;> simp [h, ho]

/-- C2: if the arbiter's cached current channel already equals the
target, `switch_mux_channel` returns success and performs zero hardware
channel-select writes; moreover whenever a `switch_mux_channel` call
succeeds, an immediately following call with the same channel performs
zero further writes, and any single call performs at most one write — so
two consecutive calls with the same channel perform at most one write in
total provided the first one succeeds. -/
theorem switch_mux_cached_idempotent (o : Nat → Bool) (s : MuxState)
    (c : Nat) :
    (s.currentChannel = some c → switchMuxChannel o s c = (true, s)) ∧
    ((switchMuxChannel o s c).1 = true →
      switchMuxChannel o (switchMuxChannel o s c).2 c =
        (true, (switchMuxChannel o s c).2)) ∧
    (switchMuxChannel o s c).2.writes.length ≤ s.writes.length + 1 := by
  refine ⟨?_, ?_, switchMuxChannel_writes_le o s c⟩
  · intro h
    simp [switchMuxChannel, h]
  · intro h
    by_cases hc : s.currentChannel = some c
    · simp [switchMuxChannel, hc]
    · by_cases ho : o s.writes.length
      · have e : switchMuxChannel o s c =
            (true, ⟨some c, s.writes ++ [c]⟩) := by
          simp [switchMuxChannel, hc, ho]
        rw [e]
        simp [switchMuxChannel]
      · exfalso
        simp [switchMuxChannel, hc, ho] at h

/-- C2, witness: with an all-success oracle and the cache already on
channel 0, the call returns success without writing. -/
theorem switch_mux_cached_idempotent_witness :
    switchMuxChannel (fun _ => true) ⟨some 0, []⟩ 0 = (true, ⟨some 0, []⟩) :=
  (switch_mux_cached_idempotent (fun _ => true) ⟨some 0, []⟩ 0).1 rfl

/-- C2, counterexample to the claim as stated: when the first hardware
write raises (oracle always `false`), two consecutive
`switch_mux_channel(0)` calls from the initial state attempt two
hardware writes in total, not at most one — a failed attempt does not
update the cache, so the second call writes again. -/
theorem switch_mux_two_writes_counterexample :
    (switchMuxChannel (fun _ => false)
        (switchMuxChannel (fun _ => false) initMux 0).2 0).2.writes.length
      = 2 ∧
    (switchMuxChannel (fun _ => false) initMux 0).1 = false := by
  constructor <;> rfl

/-- C3, counterexample to the claim as stated:
`UnifiedCyberdeckController.switch_mux_channel` performs no 3-attempt
retry loop.  Under an oracle whose first write raises but whose later
writes would succeed, the call returns `False` after exactly one
hardware write; the genuine 3-attempt loop (which lives in
`ResilientMuxOLED._ensure_channel` and has no cached-channel guard)
succeeds under the same oracle on its second attempt. -/
theorem switch_mux_no_retry_counterexample :
    (switchMuxChannel (fun n => decide (0 < n)) initMux 1).1 = false ∧
    (switchMuxChannel (fun n => decide (0 < n)) initMux 1).2.writes.length
      = 1 ∧
    ensureChannel (fun n => decide (0 < n)) 0 = (true, 2) := by
  refine ⟨rfl, rfl, ?_⟩
  decide

/-- C3, amended: when the target differs from the cached channel,
`switch_mux_channel` attempts exactly one channel-select write; on
failure it returns `False` (no exception escapes) without mutating the
cached current channel; the 3-attempt retry loop with the 10 ms
inter-attempt delay is in `ResilientMuxOLED._ensure_channel`, which
attempts at most 3 writes and reports failure after exactly 3 attempts
when all of them raise. -/
theorem switch_mux_single_attempt (o : Nat → Bool) (s : MuxState) (c : Nat)
    (h : s.currentChannel ≠ some c) :
    (switchMuxChannel o s c).2.writes.length = s.writes.length + 1 ∧
    (o s.writes.length = false →
      switchMuxChannel o s c = (false, ⟨s.currentChannel, s.writes ++ [c]⟩)) ∧
    (∀ start, (ensureChannel o start).2 ≤ 3 ∧
      (o start = false → o (start + 1) = false → o (start + 2) = false →
        ensureChannel o start = (false, 3))) := by
  refine ⟨?_, ?_, ?_⟩
  · by_cases ho : o s.writes.length <;> simp [switchMuxChannel, h, ho]
  · intro ho
    simp [switchMuxChannel, h, ho]
  · intro start
    constructor
    · by_cases h0 : o start <;>
        by_cases h1 : o (start + 1) <;>
          by_cases h2 : o (start + 2) <;>
            simp [ensureChannel, ensureChannelAttempts, h0, h1, h2]
    · intro h0 h1 h2
      simp [ensureChannel, ensureChannelAttempts, h0, h1, h2]

/-- C3, amended, witness: with an all-fail oracle and an empty cache,
switching to channel 1 attempts exactly one write. -/
theorem switch_mux_single_attempt_witness :
    (switchMuxChannel (fun _ => false) initMux 1).2.writes.length = 0 + 1 ∧
    ensureChannel (fun _ => false) 0 = (false, 3) := by
  have h := switch_mux_single_attempt (fun _ => false) initMux 1 (by decide)
  exact ⟨h.1, (h.2.2 0).2 rfl rfl rfl⟩


/-- C1, counterexample to the claim as stated: the `finally` block of
`update_servo_angle` only *attempts* the switch back to the OLED
channel; a failure of that closing channel-select write is swallowed.
With the mux cached on the OLED channel, an oracle whose first write
succeeds and whose second raises, and a rotation that changes the angle,
the controller ends on the servo channel, not the idle channel. -/
theorem update_servo_stuck_on_servo_counterexample :
    (updateServoAngle unifiedDefaultConfig (fun n => decide (n = 0)) true
        ⟨⟨some OLED_CHANNEL, []⟩, 145, 0, .direct⟩ 1).mux.currentChannel
      = some SERVO_CHANNEL ∧ SERVO_CHANNEL ≠ OLED_CHANNEL := by
  constructor
  · norm_num [updateServoAngle, switchMuxChannel, clampAngle, pymin,
      pymax, unifiedDefaultConfig, ServoConfig.sensitivity,
      SERVO_CHANNEL, OLED_CHANNEL]
  · decide

/-- C1, amended: every scoped actuator access in `update_servo_angle`
attempts the switch back to the idle (OLED) channel on all exit paths;
whenever that closing channel-select write succeeds, the multiplexer's
current channel equals the idle channel after the scope is released,
regardless of whether the enclosed device angle write succeeded
(`dOk = true`) or raised (`dOk = false`). -/
theorem update_servo_scoped_returns_idle (cfg : ServoConfig)
    (o : Nat → Bool) (dOk : Bool) (s : CtrlState) (delta : Int)
    (hchange : clampAngle cfg s.mode
      (cfg.centerAngle + (s.encoderPos + delta) * cfg.sensitivity s.mode)
        ≠ s.currentAngle)
    (hentry : (switchMuxChannel o s.mux SERVO_CHANNEL).1 = true)
    (hrel : o (switchMuxChannel o s.mux SERVO_CHANNEL).2.writes.length
      = true) :
    (updateServoAngle cfg o dOk s delta).mux.currentChannel
      = some OLED_CHANNEL := by
  have hso : (some SERVO_CHANNEL : Option Nat) ≠ some OLED_CHANNEL := by
    decide
  by_cases hc : s.mux.currentChannel = some SERVO_CHANNEL
  · have e1 : switchMuxChannel o s.mux SERVO_CHANNEL = (true, s.mux) := by
      simp [switchMuxChannel, hc]
    have hrel' : o s.mux.writes.length = true := by
      rw [e1] at hrel
      exact hrel
    have hne : s.mux.currentChannel ≠ some OLED_CHANNEL := by
      rw [hc]
      exact hso
    have e2 : switchMuxChannel o s.mux OLED_CHANNEL =
        (true, ⟨some OLED_CHANNEL, s.mux.writes ++ [OLED_CHANNEL]⟩) := by
      simp [switchMuxChannel, hne, hrel']
    simp [updateServoAngle, hchange, e1, e2]
  · by_cases ho : o s.mux.writes.length
    · have e1 : switchMuxChannel o s.mux SERVO_CHANNEL =
          (true, ⟨some SERVO_CHANNEL,
            s.mux.writes ++ [SERVO_CHANNEL]⟩) := by
        simp [switchMuxChannel, hc, ho]
      have hrel' : o (s.mux.writes.length + 1) = true := by
        rw [e1] at hrel
        simpa using hrel
      have e2 : switchMuxChannel o
          ⟨some SERVO_CHANNEL, s.mux.writes ++ [SERVO_CHANNEL]⟩
          OLED_CHANNEL =
          (true, ⟨some OLED_CHANNEL,
            (s.mux.writes ++ [SERVO_CHANNEL]) ++ [OLED_CHANNEL]⟩) := by
        simp [switchMuxChannel, hso, hrel']
      simp [updateServoAngle, hchange, e1, e2]
    · exfalso
      rw [switchMuxChannel] at hentry
      simp [hc, ho] at hentry

/-- C1, amended, witness: with an all-success bus oracle and a device
write that raises, a rotation of +1 from angle 145 in Direct mode ends
with the mux on the OLED channel. -/
theorem update_servo_scoped_returns_idle_witness :
    (updateServoAngle unifiedDefaultConfig (fun _ => true) false
        ⟨⟨some OLED_CHANNEL, []⟩, 145, 0, .direct⟩ 1).mux.currentChannel
      = some OLED_CHANNEL :=
  update_servo_scoped_returns_idle unifiedDefaultConfig (fun _ => true)
    false ⟨⟨some OLED_CHANNEL, []⟩, 145, 0, .direct⟩ 1
    (by norm_num [clampAngle, pymin, pymax, unifiedDefaultConfig,
      ServoConfig.sensitivity])
    (by simp [switchMuxChannel, OLED_CHANNEL, SERVO_CHANNEL]) (by simp)

/-- Helper: `update_servo_angle` always leaves
`current_angle = clamp(center + encoder_pos * sensitivity)` for the new
encoder position, adds `delta` to the encoder position, and never
touches the mode.  (In the unchanged-angle branch the equality holds
because the stored angle already equals the recomputed one.) -/
theorem updateServoAngle_fields (cfg : ServoConfig) (o : Nat → Bool)
    (d : Bool) (s : CtrlState) (δ : Int) :
    (updateServoAngle cfg o d s δ).currentAngle =
      clampAngle cfg s.mode
        (cfg.centerAngle + ((s.encoderPos + δ : Int) : Rat) *
          cfg.sensitivity s.mode) ∧
    (updateServoAngle cfg o d s δ).encoderPos = s.encoderPos + δ ∧
    (updateServoAngle cfg o d s δ).mode = s.mode := by
  simp only [updateServoAngle]
  split
  next h => exact ⟨h.symm, rfl, rfl⟩
  next h =>
    split
    · exact ⟨rfl, rfl, rfl⟩
    · exact ⟨rfl, rfl, rfl⟩

/-- Helper: folding a nonempty list of rotation deltas accumulates the
encoder position and leaves the angle at the clamped formula for the
final position, under the unchanged mode. -/
theorem applyRotations_fields (cfg : ServoConfig) (o : Nat → Bool)
    (d : Bool) :
    ∀ (ds : List Int) (s : CtrlState), ds ≠ [] →
      (applyRotations cfg o d s ds).currentAngle =
        clampAngle cfg s.mode
          (cfg.centerAngle + ((s.encoderPos + ds.sum : Int) : Rat) *
            cfg.sensitivity s.mode) ∧
      (applyRotations cfg o d s ds).encoderPos = s.encoderPos + ds.sum ∧
      (applyRotations cfg o d s ds).mode = s.mode := by
  intro ds
  induction ds with
  | nil => intro s h; exact absurd rfl h
  | cons δ ds ih =>
    intro s _
    have hstep : applyRotations cfg o d s (δ :: ds) =
        applyRotations cfg o d (updateServoAngle cfg o d s δ) ds := rfl
    have hf := updateServoAngle_fields cfg o d s δ
    by_cases hds : ds = []
    · subst hds
      have : applyRotations cfg o d s [δ] = updateServoAngle cfg o d s δ :=
        rfl
      rw [this]
      simpa using hf
    · have hr := ih (updateServoAngle cfg o d s δ) hds
      rw [hstep]
      rw [hf.2.1, hf.2.2] at hr
      refine ⟨?_, ?_, ?_⟩
      · rw [hr.1]
        have : s.encoderPos + δ + ds.sum = s.encoderPos + (δ :: ds).sum := by
          simp [List.sum_cons]
          ring
        rw [this]
      · rw [hr.2.1]
        simp [List.sum_cons]
        ring
      · rw [hr.2.2]

/-- C4: for every nonempty sequence of rotate deltas applied from
encoder position 0 under a fixed mode, the resulting angle equals
`clamp(center_angle + sum(deltas) * sensitivity(mode))` with the mode's
effective clamp range, the encoder position equals the sum of the
deltas, and the mode is unchanged — for every bus-write oracle and
device-write outcome, since `update_servo_angle` computes the angle
before any hardware interaction. -/
theorem rotations_angle_formula (cfg : ServoConfig) (o : Nat → Bool)
    (d : Bool) (s : CtrlState) (ds : List Int)
    (hpos : s.encoderPos = 0) (hne : ds ≠ []) :
    (applyRotations cfg o d s ds).currentAngle =
      clampAngle cfg s.mode
        (cfg.centerAngle + ((ds.sum : Int) : Rat) *
          cfg.sensitivity s.mode) ∧
    (applyRotations cfg o d s ds).encoderPos = ds.sum ∧
    (applyRotations cfg o d s ds).mode = s.mode := by
  have h := applyRotations_fields cfg o d ds s hne
  rw [hpos] at h
  simpa using h

/-- C4, witness: the spec scenario — config `center_angle=145`,
`direct.sensitivity=10`, limits `[0, 270]`, applying `Rotate(+3)` in
Direct mode from position 0 yields angle 175. -/
theorem rotations_angle_formula_witness :
    (applyRotations unifiedDefaultConfig (fun _ => true) true
        ⟨⟨some OLED_CHANNEL, []⟩, 145, 0, .direct⟩ [3]).currentAngle
      = 175 := by
  have h := (rotations_angle_formula unifiedDefaultConfig (fun _ => true)
    true ⟨⟨some OLED_CHANNEL, []⟩, 145, 0, .direct⟩ [3] rfl
    (by simp)).1
  rw [h]
  norm_num [clampAngle, pymin, pymax, unifiedDefaultConfig,
    ServoConfig.sensitivity]

/-- Helper: one `process_encoder_events` iteration never mutates
`self.mode`, whatever the event. -/
theorem processEvent_mode (cfg : ServoConfig) (o : Nat → Bool) (d : Bool)
    (s : CtrlState) (e : UEvent) :
    (processEvent cfg o d s e).mode = s.mode := by
  cases e with
  | rotation δ => exact (updateServoAngle_fields cfg o d s δ).2.2
  | click =>
      exact (updateServoAngle_fields cfg o d { s with encoderPos := 0 } 0).2.2
  | doubleClick => rfl
  | longPress => rfl

/-- C10: draining any queue of encoder events through
`process_encoder_events` leaves `self.mode` unchanged — the handler has
branches only for `'rotation'`, `'click'` and `'long_press'`, none of
which assigns `self.mode` — and a `'double_click'` event is consumed
with no effect at all on the controller state, so the mode chosen at
startup persists for the process lifetime. -/
theorem process_events_mode_frame (cfg : ServoConfig) (o : Nat → Bool)
    (d : Bool) (s : CtrlState) (es : List UEvent) :
    (processEvents cfg o d s es).mode = s.mode ∧
    processEvent cfg o d s UEvent.doubleClick = s := by
  refine ⟨?_, rfl⟩
  induction es generalizing s with
  | nil => rfl
  | cons e es ih =>
    have hstep : processEvents cfg o d s (e :: es) =
        processEvents cfg o d (processEvent cfg o d s e) es := rfl
    rw [hstep, ih, processEvent_mode]

/-- Helper: `clampAngle` is clamping to the mode's effective bounds. -/
theorem clampAngle_eq_effective (cfg : ServoConfig) (m : Mode) (x : Rat) :
    clampAngle cfg m x =
      pymax (effectiveMin cfg m) (pymin (effectiveMax cfg m) x) := by
  cases m <;> rfl

/-- Helper: the clamp of any value lies between its bounds when the
bounds are ordered. -/
theorem clamp_bounds (lo hi x : Rat) (h : lo ≤ hi) :
    lo ≤ pymax lo (pymin hi x) ∧ pymax lo (pymin hi x) ≤ hi := by
  unfold pymin pymax
  split_ifs <;> constructor <;> linarith

/-- Helper: after `ScreenTiltController.update_servo` the stored angle
equals the clamped formula at the current encoder position and lies in
the active mode's effective range (mode and encoder position are not
touched by `update_servo`). -/
theorem updateServo_invariant (cfg : ServoConfig) (s : TiltState)
    (h : effectiveMin cfg s.mode ≤ effectiveMax cfg s.mode) :
    (updateServo cfg s).currentAngle =
      clampAngle cfg (updateServo cfg s).mode
        (cfg.centerAngle + (updateServo cfg s).encoderPos *
          cfg.sensitivity (updateServo cfg s).mode) ∧
    effectiveMin cfg (updateServo cfg s).mode ≤
      (updateServo cfg s).currentAngle ∧
    (updateServo cfg s).currentAngle ≤
      effectiveMax cfg (updateServo cfg s).mode := by
  refine ⟨rfl, ?_, ?_⟩
  · have e : (updateServo cfg s).currentAngle =
        pymax (effectiveMin cfg s.mode) (pymin (effectiveMax cfg s.mode)
          (cfg.centerAngle + s.encoderPos * cfg.sensitivity s.mode)) := by
      rw [show (updateServo cfg s).currentAngle = clampAngle cfg s.mode
        (cfg.centerAngle + s.encoderPos * cfg.sensitivity s.mode) from rfl]
      rw [clampAngle_eq_effective]
    rw [e]
    exact (clamp_bounds _ _ _ h).1
  · have e : (updateServo cfg s).currentAngle =
        pymax (effectiveMin cfg s.mode) (pymin (effectiveMax cfg s.mode)
          (cfg.centerAngle + s.encoderPos * cfg.sensitivity s.mode)) := by
      rw [show (updateServo cfg s).currentAngle = clampAngle cfg s.mode
        (cfg.centerAngle + s.encoderPos * cfg.sensitivity s.mode) from rfl]
      rw [clampAngle_eq_effective]
    rw [e]
    exact (clamp_bounds _ _ _ h).2

/-- C5, counterexample to the claim as stated: seeding
`ScreenTiltController.__init__` from a persisted state restores
`last_position` into `current_angle` but resets `encoder_pos = 0`, so
with the default config (`center_angle = 250`) and a persisted position
of 175 the invariant
`angle == clamp(center + encoder_position * sensitivity(mode))` is
already false right after this mutation. -/
theorem tilt_seed_invariant_counterexample :
    (seedState tiltDefaultConfig .direct (some (175, .direct))).currentAngle
      ≠ clampAngle tiltDefaultConfig
          (seedState tiltDefaultConfig .direct
            (some (175, .direct))).mode
          (tiltDefaultConfig.centerAngle +
            (seedState tiltDefaultConfig .direct
              (some (175, .direct))).encoderPos *
              tiltDefaultConfig.sensitivity
                (seedState tiltDefaultConfig .direct
                  (some (175, .direct))).mode) := by
  norm_num [seedState, clampAngle, pymin, pymax, tiltDefaultConfig,
    ServoConfig.sensitivity]

/-- C5, amended: the invariant — angle within the active mode's
effective `[min, max]` and
`angle == clamp(center_angle + encoder_position * sensitivity(mode))` —
holds after applying a rotation and after going home (whenever the
configured bounds are ordered), but not after seeding from persisted
state (which resets `encoder_pos` to 0 while keeping the persisted
angle) nor after cycling the mode (which truncates the recomputed
position and never recomputes the angle). -/
theorem tilt_invariant_after_rotation_and_home (cfg : ServoConfig)
    (s : TiltState) (δ : Int) (hd : cfg.minAngle ≤ cfg.maxAngle)
    (hr : cfg.rangeMin ≤ cfg.rangeMax) :
    ((tiltApplyRotation cfg s δ).currentAngle =
      clampAngle cfg (tiltApplyRotation cfg s δ).mode
        (cfg.centerAngle + (tiltApplyRotation cfg s δ).encoderPos *
          cfg.sensitivity (tiltApplyRotation cfg s δ).mode) ∧
     effectiveMin cfg (tiltApplyRotation cfg s δ).mode ≤
       (tiltApplyRotation cfg s δ).currentAngle ∧
     (tiltApplyRotation cfg s δ).currentAngle ≤
       effectiveMax cfg (tiltApplyRotation cfg s δ).mode) ∧
    ((goHome cfg s).encoderPos = 0 ∧
     (goHome cfg s).currentAngle =
      clampAngle cfg (goHome cfg s).mode
        (cfg.centerAngle + (goHome cfg s).encoderPos *
          cfg.sensitivity (goHome cfg s).mode) ∧
     effectiveMin cfg (goHome cfg s).mode ≤ (goHome cfg s).currentAngle ∧
     (goHome cfg s).currentAngle ≤
       effectiveMax cfg (goHome cfg s).mode) := by
  have hall : ∀ m : Mode, effectiveMin cfg m ≤ effectiveMax cfg m := by
    intro m
    cases m
    · exact hd
    · exact hd
    · exact hr
  constructor
  · exact updateServo_invariant cfg
      { s with encoderPos := s.encoderPos + δ } (hall s.mode)
  · exact ⟨rfl,
      updateServo_invariant cfg { s with encoderPos := 0 } (hall s.mode)⟩

/-- C5, amended, witness: with the default screen-tilt config, a +1
rotation from the seeded center state satisfies the invariant, and so
does going home. -/
theorem tilt_invariant_witness :
    (tiltApplyRotation tiltDefaultConfig ⟨250, 0, .direct⟩ 1).currentAngle
      = clampAngle tiltDefaultConfig
          (tiltApplyRotation tiltDefaultConfig ⟨250, 0, .direct⟩ 1).mode
          (tiltDefaultConfig.centerAngle +
            (tiltApplyRotation tiltDefaultConfig
              ⟨250, 0, .direct⟩ 1).encoderPos *
              tiltDefaultConfig.sensitivity
                (tiltApplyRotation tiltDefaultConfig
                  ⟨250, 0, .direct⟩ 1).mode) ∧
    (goHome tiltDefaultConfig ⟨250, 0, .direct⟩).encoderPos = 0 :=
  ⟨(tilt_invariant_after_rotation_and_home tiltDefaultConfig
      ⟨250, 0, .direct⟩ 1 (by norm_num [tiltDefaultConfig])
      (by norm_num [tiltDefaultConfig])).1.1,
   (tilt_invariant_after_rotation_and_home tiltDefaultConfig
      ⟨250, 0, .direct⟩ 1 (by norm_num [tiltDefaultConfig])
      (by norm_num [tiltDefaultConfig])).2.1⟩

/-- C6, counterexample to the claim as stated:
`_handle_double_click` recomputes the encoder position with Python
`int(...)`, which truncates toward zero, not `round(...)`.  Cycling from
Fine (sensitivity 1) to Range (sensitivity 5) at angle 137 under the
default config (`center_angle = 250`) stores
`int((137-250)/5) = int(-22.6) = -22`, while rounding would give -23. -/
theorem cycle_mode_trunc_counterexample :
    (cycleMode tiltDefaultConfig ⟨137, -113, .fine⟩).encoderPos = -22 ∧
    round ((137 - tiltDefaultConfig.centerAngle) /
      tiltDefaultConfig.sensitivity (nextMode .fine)) = -23 := by
  constructor
  · norm_num [cycleMode, pytrunc, nextMode, tiltDefaultConfig,
      ServoConfig.sensitivity, Int.floor_eq_iff]
  · norm_num [nextMode, tiltDefaultConfig, ServoConfig.sensitivity,
      round_eq, Int.floor_eq_iff]

/-- C6, amended: `_handle_double_click` advances the mode in the cyclic
order Direct→Fine→Range→Direct and recomputes
`encoder_position = int((angle - center_angle) / sensitivity(new_mode))`
truncated toward zero; the observable angle is not recomputed at the
switch, so it is exactly unchanged at the moment of the mode switch. -/
theorem cycle_mode_continuity (cfg : ServoConfig) (s : TiltState) :
    (cycleMode cfg s).mode = nextMode s.mode ∧
    (cycleMode cfg s).currentAngle = s.currentAngle ∧
    (cycleMode cfg s).encoderPos =
      pytrunc ((s.currentAngle - cfg.centerAngle) /
        cfg.sensitivity (nextMode s.mode)) :=
  ⟨rfl, rfl, rfl⟩

/-- C7: from the clean classifier state, a release held more than 1.0 s
yields exactly one `LongPress`; a release within 1.0 s followed by the
0.3 s deadline (no further click) yields exactly one `Click`; two
releases within the 0.3 s window of each other followed by the deadline
yield exactly one `DoubleClick` — mutually exclusive single outcomes for
the respective press episodes. -/
theorem button_episode_classification (d d1 d2 : Rat) (hlong : 1 < d)
    (h1 : d1 ≤ 1) (h2 : d2 ≤ 1) :
    runBtn cleanClassifier [.release d] =
      (cleanClassifier, [.longPress]) ∧
    runBtn cleanClassifier [.release d1, .timeout] =
      (cleanClassifier, [.click]) ∧
    runBtn cleanClassifier [.release d1, .release d2, .timeout] =
      (cleanClassifier, [.doubleClick]) := by
  have h1' : ¬(1 < d1) := not_lt.mpr h1
  have h2' : ¬(1 < d2) := not_lt.mpr h2
  refine ⟨?_, ?_, ?_⟩ <;>
    simp [runBtn, stepBtn, cleanClassifier, hlong, h1', h2']

/-- C7, witness: a 2 s hold gives one `LongPress`; a 0.5 s press then
the deadline gives one `Click`; two 0.5 s presses then the deadline give
one `DoubleClick`. -/
theorem button_episode_classification_witness :
    runBtn cleanClassifier [.release 2] =
      (cleanClassifier, [.longPress]) ∧
    runBtn cleanClassifier [.release (1/2), .timeout] =
      (cleanClassifier, [.click]) ∧
    runBtn cleanClassifier [.release (1/2), .release (1/2), .timeout] =
      (cleanClassifier, [.doubleClick]) :=
  button_episode_classification 2 (1/2) (1/2) (by norm_num)
    (by norm_num) (by norm_num)

/-- C8, counterexample to the claim as stated: a triple click — three
short releases, then the 0.3 s deadline — produces *no* event at all:
`_process_clicks` only handles `click_count == 1` and
`click_count == 2`, so a count of 3 or more is discarded without
emitting a `DoubleClick`. -/
theorem triple_click_no_event_counterexample :
    runBtn cleanClassifier
        [.release (1/2), .release (1/2), .release (1/2), .timeout] =
      (cleanClassifier, []) := by
  norm_num [runBtn, stepBtn, cleanClassifier]

/-- C8, amended: when the pending-click deadline elapses with an
accumulated count of 3 or more, no event is produced and all the clicks
are discarded (the count resets to 0); only a count of exactly 2
produces a `DoubleClick`. -/
theorem pending_clicks_discard_three_or_more (n : Nat) (h : 3 ≤ n) :
    stepBtn ⟨n, true⟩ .timeout = (⟨0, false⟩, none) ∧
    stepBtn ⟨2, true⟩ .timeout = (⟨0, false⟩, some .doubleClick) := by
  have h1 : n ≠ 1 := by omega
  have h2 : n ≠ 2 := by omega
  constructor
  · simp [stepBtn, h1, h2]
  · simp [stepBtn]

/-- C8, amended, witness: a deadline with 3 accumulated clicks yields no
event. -/
theorem pending_clicks_discard_witness :
    stepBtn ⟨3, true⟩ .timeout = (⟨0, false⟩, none) :=
  (pending_clicks_discard_three_or_more 3 (by norm_num)).1

/-- C9: for every pair of consecutive CLK samples, a rotation is decoded
exactly on a high→low transition of CLK; the delta is `+1` exactly when
the DT sample differs from the new (low) CLK sample, `-1` when it
equals it, and no rotation is emitted on any other transition. -/
theorem rotation_decode_spec (lastClk clk dt : Bool) :
    (decodeRotation lastClk clk dt = some 1 ↔
      lastClk = true ∧ clk = false ∧ dt = true) ∧
    (decodeRotation lastClk clk dt = some (-1) ↔
      lastClk = true ∧ clk = false ∧ dt = false) ∧
    (decodeRotation lastClk clk dt = none ↔
      ¬(lastClk = true ∧ clk = false)) := by
  cases lastClk <;> cases clk <;> cases dt <;> decide
